import Mathlib

/-!
Verification of the `nudge` installer (`src/lib/install.js`).

The embedding models:
 - the spec-modelled helpers from `lib/utils.js` (that file is not in the
   repository snapshot; only `install.js` imports it), namely
   `isValidHexColor`, `updateFrontmatter` and the `DEFAULT_COLOR` constant;
 - the installer flow from `install.js`: `installOpenCode`, `installCopilot`
   and the top-level `install` driver, with the interactive prompts
   (`p.confirm`, `p.select`, `p.text`) modelled as consumers of a script of
   user events, and the filesystem as an explicit record threaded through.

All definitions are computable so that concrete runs evaluate by `decide`.
-/

set_option autoImplicit false

namespace Nudge

/-! ### String helpers (structural, kernel-reducible) -/

/-- Split a character list into lines at each newline character. -/
def splitLinesAux : List Char → List Char → List String
  | [], acc => [String.mk acc.reverse]
  | c :: cs, acc =>
    if c = '\n' then String.mk acc.reverse :: splitLinesAux cs []
    else splitLinesAux cs (c :: acc)

/-- Split a string into its lines (inverse of `joinLines`). -/
def splitLines (s : String) : List String :=
  splitLinesAux s.data []

/-- Join lines with newline separators. -/
def joinLines : List String → String
  | [] => ""
  | [l] => l
  | l :: l' :: ls => l ++ "\n" ++ joinLines (l' :: ls)

/-- Break a character list at the first colon: `(before, after)`. -/
def breakAtColon : List Char → Option (List Char × List Char)
  | [] => none
  | c :: cs =>
    if c = ':' then some ([], cs)
    else (breakAtColon cs).map (fun p => (c :: p.1, p.2))

/-- Drop a single leading space, if present. -/
def dropOneSpace : List Char → List Char
  | ' ' :: cs => cs
  | cs => cs

/-- JavaScript string truthiness of an optional string: `undefined` and the
empty string are falsy. -/
def truthy : Option String → Bool
  | none => false
  | some s => !s.data.isEmpty

/-- JavaScript `o || d` on an optional string. -/
def jsOr (o : Option String) (d : String) : String :=
  match o with
  | none => d
  | some s => if s.data.isEmpty then d else s

/-! ### ValidationRules -/

/-- Hexadecimal digit, case-insensitive. -/
def isHexDigitChar (c : Char) : Bool :=
  ('0' ≤ c && c ≤ '9') || ('a' ≤ c && c ≤ 'f') || ('A' ≤ c && c ≤ 'F')

/-- Modelled from the spec: `isValidHexColor` from the missing `lib/utils.js`.
True iff the string is `#` followed by exactly six hexadecimal digits
(case-insensitive). -/
def isValidHexColor (s : String) : Bool :=
  match s.data with
  | '#' :: rest => rest.length = 6 && rest.all isHexDigitChar
  | _ => false

/-- The `validate` callback of the custom-model text prompt
(`install.js` lines 95-99): empty is allowed; otherwise the value must
contain a `/`. `none` means the value is accepted. -/
def modelTextValidate (value : String) : Option String :=
  if value.data.isEmpty then none
  else if !value.data.contains '/' then
    some "Model should be in format: provider/model-name"
  else none

/-- The `validate` callback of the custom-color text prompt
(`install.js` lines 135-139): empty is rejected; otherwise the value must
pass `isValidHexColor`. `none` means the value is accepted. -/
def colorTextValidate (value : String) : Option String :=
  if value.data.isEmpty then some "Color is required"
  else if !isValidHexColor value then some "Invalid hex color format. Use #RRGGBB"
  else none

/-- Modelled from the spec: `DEFAULT_COLOR` from the missing `lib/utils.js`,
the system default color the spec illustrates as `#14B8A6`. -/
def DEFAULT_COLOR : String := "#14B8A6"

/-! ### MetadataBlock and FrontmatterMerger (modelled from the spec) -/

/-- Error raised by the frontmatter merge. -/
inductive MergeError
  | malformedDocument
  deriving DecidableEq

/-- Modelled from the spec: parse one `key: value` header line (the value is
everything after the first colon, with one conventional separating space
stripped). -/
def parseKV (line : String) : Option (String × String) :=
  match breakAtColon line.data with
  | none => none
  | some (k, v) => some (String.mk k, String.mk (dropOneSpace v))

/-- Modelled from the spec: scan header lines until the closing `---`
delimiter, collecting `key: value` pairs; the remaining lines are the body. -/
def scanHeader : List String → Option (List (String × String) × List String)
  | [] => none
  | line :: rest =>
    if line = "---" then some ([], rest)
    else
      match parseKV line with
      | none => none
      | some kv =>
        match scanHeader rest with
        | none => none
        | some (pairs, body) => some (kv :: pairs, body)

/-- Modelled from the spec: `parse(text)` of MetadataBlock. The first line
must be exactly the `---` delimiter; returns the ordered key/value pairs and
the body text, or `none` when no well-delimited header is present. -/
def parseFrontmatter (text : String) : Option (List (String × String) × String) :=
  match splitLines text with
  | [] => none
  | first :: rest =>
    if first = "---" then
      match scanHeader rest with
      | none => none
      | some (pairs, bodyLines) => some (pairs, joinLines bodyLines)
    else none

/-- Modelled from the spec: serialize a MetadataBlock — opening delimiter,
each pair as `key: value`, closing delimiter, then the body unchanged. -/
def serializeFrontmatter (pairs : List (String × String)) (body : String) : String :=
  "---\n" ++ String.join (pairs.map (fun kv => kv.1 ++ ": " ++ kv.2 ++ "\n"))
    ++ "---\n" ++ body

/-- Modelled from the spec: apply one field update — replace an existing key
in place, otherwise append at the end. -/
def applyUpdate (pairs : List (String × String)) (key value : String) :
    List (String × String) :=
  if pairs.any (fun kv => kv.1 == key) then
    pairs.map (fun kv => if kv.1 == key then (kv.1, value) else kv)
  else pairs ++ [(key, value)]

/-- Modelled from the spec: apply the updates in caller-supplied order. -/
def applyUpdates (pairs : List (String × String)) (updates : List (String × String)) :
    List (String × String) :=
  updates.foldl (fun acc kv => applyUpdate acc kv.1 kv.2) pairs

/-- Modelled from the spec: `updateFrontmatter` from the missing
`lib/utils.js` — fail loudly with `MalformedDocument` when no header is
present, otherwise merge the updates and re-serialize. -/
def updateFrontmatter (content : String) (updates : List (String × String)) :
    Except MergeError String :=
  match parseFrontmatter content with
  | none => .error .malformedDocument
  | some (pairs, body) => .ok (serializeFrontmatter (applyUpdates pairs updates) body)

/-! ### Prompt machinery

The interactive prompts of `@clack/prompts` are modelled as consumers of a
script of user events. An exhausted or ill-typed script behaves as a
cancellation (the prompt never resolves with a value of the wrong shape);
theorems instantiate well-typed scripts. A `p.text` prompt with a `validate`
callback re-prompts on invalid submissions, so it keeps consuming events
until one validates or the user cancels. -/

/-- One user response: cancel, a confirm answer, or a select/text answer. -/
inductive UEvent
  | cancel
  | ansB (b : Bool)
  | ansS (s : String)
  deriving DecidableEq

/-- Outcome of one prompt: cancelled (`p.isCancel`) or a value. -/
inductive PromptResult (α : Type)
  | cancelled
  | value (a : α)
  deriving DecidableEq

/-- Which prompt was shown, for the interaction log. -/
inductive PromptTag
  | platformSelect
  | overwriteOpenCode
  | modelSelect
  | modelCustom
  | colorSelect
  | colorCustom
  | overwriteCopilot
  deriving DecidableEq

/-- One observable side effect: a prompt shown, or a log line. -/
inductive LogEvent
  | prompt (t : PromptTag)
  | logInfo (msg : String)
  | logWarning (msg : String)
  | logError (msg : String)
  deriving DecidableEq

/-- The filesystem as seen by `install.js`: the three directories it may
create, the two target agent files, and the two read-only template files
(`none` means absent). -/
structure FS where
  opencodeConfigDir : Bool
  opencodeAgentsDir : Bool
  copilotAgentsDir : Bool
  opencodeAgent : Option String
  copilotAgent : Option String
  opencodeTemplate : Option String
  copilotTemplate : Option String
  deriving DecidableEq

/-- The world state threaded through the installer: filesystem, remaining
user-event script, and the append-only interaction log. -/
structure St where
  fs : FS
  events : List UEvent
  log : List LogEvent
  deriving DecidableEq

/-- Append one event to the log. -/
def St.emit (st : St) (e : LogEvent) : St :=
  { st with log := st.log ++ [e] }

/-- `p.confirm`: consumes one event; a boolean answers, anything else is a
cancellation. -/
def runConfirm (t : PromptTag) (st : St) : PromptResult Bool × St :=
  match st.events with
  | .ansB b :: rest => (.value b, { st.emit (.prompt t) with events := rest })
  | .cancel :: rest => (.cancelled, { st.emit (.prompt t) with events := rest })
  | evs => (.cancelled, { st.emit (.prompt t) with events := evs })

/-- `p.select`: consumes one event; a string answers, anything else is a
cancellation. -/
def runSelect (t : PromptTag) (st : St) : PromptResult String × St :=
  match st.events with
  | .ansS s :: rest => (.value s, { st.emit (.prompt t) with events := rest })
  | .cancel :: rest => (.cancelled, { st.emit (.prompt t) with events := rest })
  | evs => (.cancelled, { st.emit (.prompt t) with events := evs })

/-- The re-prompt loop of a validated `p.text`: consume submissions until one
passes `validate` or the user cancels. -/
def drainText (validate : String → Option String) :
    List UEvent → PromptResult String × List UEvent
  | [] => (.cancelled, [])
  | .cancel :: rest => (.cancelled, rest)
  | .ansB _ :: rest => (.cancelled, rest)
  | .ansS s :: rest =>
    if (validate s).isNone then (.value s, rest) else drainText validate rest

/-- `p.text` with a `validate` callback. -/
def runText (t : PromptTag) (validate : String → Option String) (st : St) :
    PromptResult String × St :=
  let st := st.emit (.prompt t)
  match drainText validate st.events with
  | (r, rest) => (r, { st with events := rest })

/-! ### installOpenCode (`install.js` lines 40-179) -/

/-- The recognized CLI options (`options` in `install.js`). `model` and
`color` are JavaScript strings that may be absent; `tui` may be absent
(`install` treats anything but an explicit `false` as interactive). -/
structure Options where
  all : Bool
  opencode : Bool
  copilot : Bool
  model : Option String
  color : Option String
  tui : Option Bool
  deriving DecidableEq

/-- Result of `installOpenCode`: `skipped` is the JavaScript `false` return
(cancellation, validation error, missing template, or declined overwrite);
`installed` carries the resolved `{ model, color }` object; `crashed` is an
exception propagating out of `updateFrontmatter` uncaught. -/
inductive OCOutcome
  | skipped
  | installed (model color : String)
  | crashed (e : MergeError)
  deriving DecidableEq

/-- Directory bookkeeping of `installOpenCode` (lines 44-53): create the
OpenCode config directory (with an info log) and the agents directory when
absent. -/
def ocMkdirs (st : St) : St :=
  let st :=
    if st.fs.opencodeConfigDir then st
    else { st.emit (.logInfo "Creating OpenCode config directory...") with
           fs := { st.fs with opencodeConfigDir := true } }
  if st.fs.opencodeAgentsDir then st
  else { st with fs := { st.fs with opencodeAgentsDir := true } }

/-- Overwrite check of `installOpenCode` (lines 56-70). Returns whether the
installation proceeds. -/
def ocOverwrite (isInteractive : Bool) (st : St) : Bool × St :=
  if (st.fs.opencodeAgent).isSome then
    if isInteractive then
      match runConfirm .overwriteOpenCode st with
      | (.value true, st) => (true, st)
      | (_, st) => (false, st.emit (.logWarning "Skipping OpenCode installation."))
    else
      (true, st.emit (.logWarning "OpenCode Learn agent already exists. Overwriting..."))
  else (true, st)

/-- Model-selection step of `installOpenCode` (lines 72-110): shown only
when interactive and no model was pre-supplied; the custom branch opens a
validated text prompt. Resolves the new `selectedModel` or a cancellation. -/
def ocModel (o : Options) (isInteractive : Bool) (selectedModel : String) (st : St) :
    PromptResult String × St :=
  if isInteractive && !truthy o.model then
    match runSelect .modelSelect st with
    | (.cancelled, st) => (.cancelled, st)
    | (.value choice, st) =>
      if choice = "__custom__" then
        match runText .modelCustom modelTextValidate st with
        | (.cancelled, st) => (.cancelled, st)
        | (.value s, st) => (.value s, st)
      else (.value choice, st)
  else (.value selectedModel, st)

/-- Outcome of the color step: cancelled, a reported validation error
(pre-supplied invalid color, lines 150-153), or a resolved color. -/
inductive ColorOut
  | cancelled
  | invalid
  | ok (c : String)
  deriving DecidableEq

/-- Color-selection step of `installOpenCode` (lines 112-153): the prompt is
shown only when interactive and no color was pre-supplied; otherwise a
truthy pre-supplied color failing `isValidHexColor` is reported as an error. -/
def ocColor (o : Options) (isInteractive : Bool) (selectedColor : String) (st : St) :
    ColorOut × St :=
  if isInteractive && !truthy o.color then
    match runSelect .colorSelect st with
    | (.cancelled, st) => (.cancelled, st)
    | (.value choice, st) =>
      if choice = "__custom__" then
        match runText .colorCustom colorTextValidate st with
        | (.cancelled, st) => (.cancelled, st)
        | (.value s, st) => (.ok s, st)
      else (.ok choice, st)
  else if truthy o.color && !isValidHexColor (jsOr o.color "") then
    (.invalid,
     st.emit (.logError ("Invalid hex color: " ++ jsOr o.color "" ++ ". Use format #RRGGBB")))
  else (.ok selectedColor, st)

/-- The frontmatter updates built at lines 165-171: always a quoted `color`,
plus a `model` key only when `selectedModel` is truthy. -/
def ocUpdates (selectedModel selectedColor : String) : List (String × String) :=
  [("color", "\"" ++ selectedColor ++ "\"")]
    ++ (if selectedModel.data.isEmpty then [] else [("model", selectedModel)])

/-- Template read, merge and write of `installOpenCode` (lines 155-178):
missing template is a reported error (`false`); a merge failure propagates
as an exception before any write; on success the merged content is written
to the OpenCode agent path. -/
def ocFinish (selectedModel selectedColor : String) (st : St) : OCOutcome × St :=
  match st.fs.opencodeTemplate with
  | none => (.skipped, st.emit (.logError "OpenCode template not found"))
  | some content =>
    match updateFrontmatter content (ocUpdates selectedModel selectedColor) with
    | .error e => (.crashed e, st)
    | .ok merged =>
      (.installed selectedModel selectedColor,
       { st with fs := { st.fs with opencodeAgent := some merged } })

/-- `installOpenCode(options, isInteractive)` (lines 40-179). -/
def installOpenCode (o : Options) (isInteractive : Bool) (st : St) : OCOutcome × St :=
  let selectedModel := jsOr o.model ""
  let selectedColor := jsOr o.color DEFAULT_COLOR
  let st := ocMkdirs st
  match ocOverwrite isInteractive st with
  | (false, st) => (.skipped, st)
  | (true, st) =>
    match ocModel o isInteractive selectedModel st with
    | (.cancelled, st) => (.skipped, st)
    | (.value m, st) =>
      match ocColor o isInteractive selectedColor st with
      | (.cancelled, st) => (.skipped, st)
      | (.invalid, st) => (.skipped, st)
      | (.ok c, st) => ocFinish m c st

/-! ### installCopilot (`install.js` lines 184-220) -/

/-- Overwrite check of `installCopilot` (lines 191-205). -/
def cpOverwrite (isInteractive : Bool) (st : St) : Bool × St :=
  if (st.fs.copilotAgent).isSome then
    if isInteractive then
      match runConfirm .overwriteCopilot st with
      | (.value true, st) => (true, st)
      | (_, st) => (false, st.emit (.logWarning "Skipping GitHub Copilot installation."))
    else
      (true, st.emit (.logWarning "GitHub Copilot Learn agent already exists. Overwriting..."))
  else (true, st)

/-- `installCopilot(isInteractive)` (lines 184-220): create the agents
directory, resolve overwriting, then copy the template verbatim — no
frontmatter merge. -/
def installCopilot (isInteractive : Bool) (st : St) : Bool × St :=
  let st :=
    if st.fs.copilotAgentsDir then st
    else { st with fs := { st.fs with copilotAgentsDir := true } }
  match cpOverwrite isInteractive st with
  | (false, st) => (false, st)
  | (true, st) =>
    match st.fs.copilotTemplate with
    | none => (false, st.emit (.logError "GitHub Copilot template not found"))
    | some content =>
      (true, { st with fs := { st.fs with copilotAgent := some content } })

/-! ### install driver (`install.js` lines 226-320) -/

/-- Platform resolution of `install` (lines 232-267): flags first, then the
interactive platform prompt, then the non-interactive default of both.
`none` is `process.exit(0)` on cancellation at the platform prompt. -/
def resolvePlatforms (o : Options) (isInteractive : Bool) (st : St) :
    Option (List String) × St :=
  if o.all then (some ["opencode", "copilot"], st)
  else if o.opencode && !o.copilot then (some ["opencode"], st)
  else if o.copilot && !o.opencode then (some ["copilot"], st)
  else if o.opencode && o.copilot then (some ["opencode", "copilot"], st)
  else if isInteractive then
    match runSelect .platformSelect st with
    | (.cancelled, st) => (none, st)
    | (.value choice, st) =>
      if choice = "both" then (some ["opencode", "copilot"], st)
      else (some [choice], st)
  else (some ["opencode", "copilot"], st)

/-- Outcome of the whole `install` run: `exited` is `process.exit(0)` at the
platform prompt; `crashed` is an uncaught merge exception; `completed`
carries `results.opencode` (the resolved model/color pair, when installed)
and `results.copilot`. -/
inductive RunOutcome
  | exited
  | crashed (e : MergeError)
  | completed (opencode : Option (String × String)) (copilot : Bool)
  deriving DecidableEq

/-- `const isInteractive = options.tui !== false` (line 227): anything but an
explicit `false` is interactive. -/
def isInteractive (o : Options) : Bool :=
  !(o.tui == some false)

/-- `install(options)` (lines 226-320). -/
def install (o : Options) (st : St) : RunOutcome × St :=
  match resolvePlatforms o (isInteractive o) st with
  | (none, st) => (.exited, st)
  | (some platforms, st) =>
    match
      (if platforms.contains "opencode" then
        match installOpenCode o (isInteractive o) st with
        | (.crashed e, st) => (Except.error e, st)
        | (.installed m c, st) => (Except.ok (some (m, c)), st)
        | (.skipped, st) => (Except.ok none, st)
      else (Except.ok none, st) :
        Except MergeError (Option (String × String)) × St) with
    | (.error e, st) => (.crashed e, st)
    | (.ok ocRes, st) =>
      if platforms.contains "copilot" then
        match installCopilot (isInteractive o) st with
        | (cp, st) => (.completed ocRes cp, st)
      else (.completed ocRes false, st)

/-! ### Fixtures for concrete runs -/

/-- A sample OpenCode template with a frontmatter header, as in the spec's
basic-merge scenario. -/
def sampleTemplate : String := "---\ncolor: \"#000000\"\n---\nBody text"

/-- `sampleTemplate` after merging the default color. -/
def sampleMergedDefault : String := "---\ncolor: \"#14B8A6\"\n---\nBody text"

/-- `sampleTemplate` after merging the default color and a pre-supplied
model value that contains no slash. -/
def sampleMergedBadModel : String :=
  "---\ncolor: \"#14B8A6\"\nmodel: claude-sonnet-4\n---\nBody text"

/-- Options with no pre-supplied model or color, non-interactive. -/
def sampleOptsNone : Options := ⟨false, false, false, none, none, some false⟩

/-- Options with a pre-supplied model value that contains no slash,
non-interactive. -/
def sampleOptsBadModel : Options :=
  ⟨false, false, false, some "claude-sonnet-4", none, some false⟩

/-- A world state with all directories present, no installed agents, and the
sample OpenCode template on disk. -/
def sampleStO : St :=
  ⟨⟨true, true, true, none, none, some sampleTemplate, none⟩, [], []⟩

/-- A world state with all directories present, no installed agents, and a
Copilot template on disk. -/
def sampleStCp : St :=
  ⟨⟨true, true, true, none, none, none, some "copilot body"⟩, [], []⟩

/-! ## Helper lemmas: prompts and phases never touch the filesystem -/

theorem St.emit_fs (st : St) (e : LogEvent) : (st.emit e).fs = st.fs := rfl

theorem runConfirm_fs (t : PromptTag) (st : St) : ((runConfirm t st).2).fs = st.fs := by
  rcases st with ⟨fs, evs, lg⟩
  cases evs with
  | nil => rfl
  | cons e rest => cases e <;> rfl

theorem runSelect_fs (t : PromptTag) (st : St) : ((runSelect t st).2).fs = st.fs := by
  rcases st with ⟨fs, evs, lg⟩
  cases evs with
  | nil => rfl
  | cons e rest => cases e <;> rfl

theorem runText_fs (t : PromptTag) (v : String → Option String) (st : St) :
    ((runText t v st).2).fs = st.fs := by
  rcases st with ⟨fs, evs, lg⟩
  rfl

theorem ocMkdirs_fs_opencodeAgent (st : St) :
    (ocMkdirs st).fs.opencodeAgent = st.fs.opencodeAgent := by
  rcases st with ⟨⟨a1, a2, a3, oa, ca, t1, t2⟩, evs, lg⟩
  cases a1 <;> cases a2 <;> rfl

theorem ocMkdirs_fs_opencodeTemplate (st : St) :
    (ocMkdirs st).fs.opencodeTemplate = st.fs.opencodeTemplate := by
  rcases st with ⟨⟨a1, a2, a3, oa, ca, t1, t2⟩, evs, lg⟩
  cases a1 <;> cases a2 <;> rfl

theorem ocOverwrite_fs (i : Bool) (st : St) : ((ocOverwrite i st).2).fs = st.fs := by
  unfold ocOverwrite
  split
  · split
    · rcases h1 : runConfirm .overwriteOpenCode st with ⟨r1, st1⟩
      have e1 : st1.fs = st.fs := by
        have := runConfirm_fs .overwriteOpenCode st; rw [h1] at this; exact this
      cases r1 with
      | cancelled => simp [St.emit_fs, e1]
      | value b => cases b <;> simp [St.emit_fs, e1]
    · simp [St.emit_fs]
  · rfl

theorem ocModel_fs (o : Options) (i : Bool) (m : String) (st : St) :
    ((ocModel o i m st).2).fs = st.fs := by
  unfold ocModel
  split
  · rcases h1 : runSelect .modelSelect st with ⟨r1, st1⟩
    have e1 : st1.fs = st.fs := by
      have := runSelect_fs .modelSelect st; rw [h1] at this; exact this
    cases r1 with
    | cancelled => simpa using e1
    | value choice =>
      by_cases hc : choice = "__custom__"
      · rcases h2 : runText .modelCustom modelTextValidate st1 with ⟨r2, st2⟩
        have e2 : st2.fs = st1.fs := by
          have := runText_fs .modelCustom modelTextValidate st1; rw [h2] at this; exact this
        cases r2 <;> simp [h2, hc, e1, e2]
      · simp [hc, e1]
  · rfl

theorem ocColor_fs (o : Options) (i : Bool) (c : String) (st : St) :
    ((ocColor o i c st).2).fs = st.fs := by
  unfold ocColor
  split
  · rcases h1 : runSelect .colorSelect st with ⟨r1, st1⟩
    have e1 : st1.fs = st.fs := by
      have := runSelect_fs .colorSelect st; rw [h1] at this; exact this
    cases r1 with
    | cancelled => simpa using e1
    | value choice =>
      by_cases hc : choice = "__custom__"
      · rcases h2 : runText .colorCustom colorTextValidate st1 with ⟨r2, st2⟩
        have e2 : st2.fs = st1.fs := by
          have := runText_fs .colorCustom colorTextValidate st1; rw [h2] at this; exact this
        cases r2 <;> simp [h2, hc, e1, e2]
      · simp [hc, e1]
  · split
    · simp [St.emit_fs]
    · rfl

theorem cpOverwrite_fs (i : Bool) (st : St) : ((cpOverwrite i st).2).fs = st.fs := by
  unfold cpOverwrite
  split
  · split
    · rcases h1 : runConfirm .overwriteCopilot st with ⟨r1, st1⟩
      have e1 : st1.fs = st.fs := by
        have := runConfirm_fs .overwriteCopilot st; rw [h1] at this; exact this
      cases r1 with
      | cancelled => simp [St.emit_fs, e1]
      | value b => cases b <;> simp [St.emit_fs, e1]
    · simp [St.emit_fs]
  · rfl

/-! ## Claims -/

/-- C1, counterexample: a pre-supplied model value with no slash is NOT
silently defaulted to "no preference" — the installer writes a `model:` line
carrying the invalid value, so the written file differs from the one written
for an absent model. -/
theorem C1_counterexample :
    (installOpenCode sampleOptsBadModel false sampleStO).2.fs.opencodeAgent
      = some sampleMergedBadModel
    ∧ (installOpenCode sampleOptsNone false sampleStO).2.fs.opencodeAgent
      = some sampleMergedDefault
    ∧ sampleMergedBadModel ≠ sampleMergedDefault := by
  decide

/-- C1 (corrected): a pre-supplied non-empty model value is used verbatim
and unvalidated — the frontmatter updates passed to the merge contain a
`model` key with exactly that value even when it contains no `/` — while an
absent (or empty) pre-supplied model yields updates with no `model` key, so
only then is the platform default used. -/
theorem claim_C1 (m tpl out out0 : String) (al oc cp : Bool)
    (cpa cpt : Option String) (evs : List UEvent) (lg : List LogEvent)
    (hm : m.data.isEmpty = false)
    (hmerge : updateFrontmatter tpl (ocUpdates m DEFAULT_COLOR) = Except.ok out)
    (hmerge0 : updateFrontmatter tpl (ocUpdates "" DEFAULT_COLOR) = Except.ok out0) :
    (∃ st', installOpenCode ⟨al, oc, cp, some m, none, some false⟩ false
        ⟨⟨true, true, true, none, cpa, some tpl, cpt⟩, evs, lg⟩
      = (.installed m DEFAULT_COLOR, st') ∧ st'.fs.opencodeAgent = some out)
    ∧ (∃ st', installOpenCode ⟨al, oc, cp, none, none, some false⟩ false
        ⟨⟨true, true, true, none, cpa, some tpl, cpt⟩, evs, lg⟩
      = (.installed "" DEFAULT_COLOR, st') ∧ st'.fs.opencodeAgent = some out0)
    ∧ ocUpdates m DEFAULT_COLOR
        = [("color", "\"" ++ DEFAULT_COLOR ++ "\""), ("model", m)]
    ∧ ocUpdates "" DEFAULT_COLOR = [("color", "\"" ++ DEFAULT_COLOR ++ "\"")] := by
  refine ⟨?_, ?_, ?_, by decide⟩
  · simp [installOpenCode, ocMkdirs, ocOverwrite, ocModel, ocColor, ocFinish,
      St.emit, truthy, jsOr, hm, hmerge]
  · simp [installOpenCode, ocMkdirs, ocOverwrite, ocModel, ocColor, ocFinish,
      St.emit, truthy, jsOr, hmerge0]
  · simp [ocUpdates, hm]

/-- C1 witness: the corrected claim at the concrete invalid model
`claude-sonnet-4`. -/
theorem claim_C1_witness :
    ("claude-sonnet-4" : String).data.isEmpty = false
    ∧ updateFrontmatter sampleTemplate (ocUpdates "claude-sonnet-4" DEFAULT_COLOR)
        = Except.ok sampleMergedBadModel
    ∧ updateFrontmatter sampleTemplate (ocUpdates "" DEFAULT_COLOR)
        = Except.ok sampleMergedDefault
    ∧ ((∃ st', installOpenCode ⟨false, false, false, some "claude-sonnet-4", none, some false⟩
          false ⟨⟨true, true, true, none, none, some sampleTemplate, none⟩, [], []⟩
        = (.installed "claude-sonnet-4" DEFAULT_COLOR, st')
        ∧ st'.fs.opencodeAgent = some sampleMergedBadModel)
      ∧ (∃ st', installOpenCode ⟨false, false, false, none, none, some false⟩
          false ⟨⟨true, true, true, none, none, some sampleTemplate, none⟩, [], []⟩
        = (.installed "" DEFAULT_COLOR, st')
        ∧ st'.fs.opencodeAgent = some sampleMergedDefault)
      ∧ ocUpdates "claude-sonnet-4" DEFAULT_COLOR
          = [("color", "\"" ++ DEFAULT_COLOR ++ "\""), ("model", "claude-sonnet-4")]
      ∧ ocUpdates "" DEFAULT_COLOR = [("color", "\"" ++ DEFAULT_COLOR ++ "\"")]) :=
  ⟨by decide, by rfl, by rfl,
   claim_C1 "claude-sonnet-4" sampleTemplate sampleMergedBadModel sampleMergedDefault
     false false false none none [] [] (by decide) (by rfl) (by rfl)⟩

/-- C2: non-interactive run with a pre-supplied color that fails hex
validation — `installOpenCode` returns the skip signal, writes nothing,
logs the validation error, and the run still completes with the Copilot
install attempted (and here succeeding). -/
theorem claim_C2 (oc cp : Bool) (mdl oa octpl : Option String) (c cptpl : String)
    (evs : List UEvent) (lg : List LogEvent)
    (hc1 : c.data.isEmpty = false) (hc2 : isValidHexColor c = false) :
    (installOpenCode ⟨true, oc, cp, mdl, some c, some false⟩ false
        ⟨⟨true, true, true, oa, none, octpl, some cptpl⟩, evs, lg⟩).1 = OCOutcome.skipped
    ∧ ∃ st',
      install ⟨true, oc, cp, mdl, some c, some false⟩
          ⟨⟨true, true, true, oa, none, octpl, some cptpl⟩, evs, lg⟩
        = (.completed none true, st')
      ∧ st'.fs.opencodeAgent = oa
      ∧ st'.fs.copilotAgent = some cptpl
      ∧ LogEvent.logError ("Invalid hex color: " ++ c ++ ". Use format #RRGGBB") ∈ st'.log := by
  constructor
  · cases oa <;>
      simp [installOpenCode, ocMkdirs, ocOverwrite, ocModel, ocColor,
        St.emit, truthy, jsOr, hc1, hc2]
  · cases oa <;>
      simp [install, resolvePlatforms, isInteractive, installOpenCode, ocMkdirs,
        ocOverwrite, ocModel, ocColor, installCopilot, cpOverwrite,
        St.emit, truthy, jsOr, hc1, hc2]

/-- C2 witness: the pre-supplied color `red` of the spec's scenario. -/
theorem claim_C2_witness :
    ("red" : String).data.isEmpty = false
    ∧ isValidHexColor "red" = false
    ∧ ((installOpenCode ⟨true, false, false, none, some "red", some false⟩ false
          ⟨⟨true, true, true, none, none, some sampleTemplate, some "copilot body"⟩, [], []⟩).1
        = OCOutcome.skipped
      ∧ ∃ st',
        install ⟨true, false, false, none, some "red", some false⟩
            ⟨⟨true, true, true, none, none, some sampleTemplate, some "copilot body"⟩, [], []⟩
          = (.completed none true, st')
        ∧ st'.fs.opencodeAgent = none
        ∧ st'.fs.copilotAgent = some "copilot body"
        ∧ LogEvent.logError ("Invalid hex color: " ++ "red" ++ ". Use format #RRGGBB") ∈ st'.log) :=
  ⟨by decide, by decide,
   claim_C2 false false none none (some sampleTemplate) "red" "copilot body" [] []
     (by decide) (by decide)⟩

/-- C3: cancelling at any of the five interactive OpenCode steps (overwrite
confirmation, model selection, custom model entry, color selection, custom
color entry) skips the OpenCode install with no write to its target, while
the Copilot install is still attempted (and here succeeds). The five
conjuncts differ only in the user-event script leading to the cancel. -/
theorem claim_C3 (oc cp : Bool) (a cptpl : String) (octpl : Option String)
    (rest : List UEvent) (lg : List LogEvent) :
    (∃ st', install ⟨true, oc, cp, none, none, none⟩
        ⟨⟨true, true, true, some a, none, octpl, some cptpl⟩,
          UEvent.cancel :: rest, lg⟩
      = (.completed none true, st')
      ∧ st'.fs.opencodeAgent = some a ∧ st'.fs.copilotAgent = some cptpl)
    ∧ (∃ st', install ⟨true, oc, cp, none, none, none⟩
        ⟨⟨true, true, true, some a, none, octpl, some cptpl⟩,
          UEvent.ansB true :: UEvent.cancel :: rest, lg⟩
      = (.completed none true, st')
      ∧ st'.fs.opencodeAgent = some a ∧ st'.fs.copilotAgent = some cptpl)
    ∧ (∃ st', install ⟨true, oc, cp, none, none, none⟩
        ⟨⟨true, true, true, some a, none, octpl, some cptpl⟩,
          UEvent.ansB true :: UEvent.ansS "__custom__" :: UEvent.cancel :: rest, lg⟩
      = (.completed none true, st')
      ∧ st'.fs.opencodeAgent = some a ∧ st'.fs.copilotAgent = some cptpl)
    ∧ (∃ st', install ⟨true, oc, cp, none, none, none⟩
        ⟨⟨true, true, true, some a, none, octpl, some cptpl⟩,
          UEvent.ansB true :: UEvent.ansS "" :: UEvent.cancel :: rest, lg⟩
      = (.completed none true, st')
      ∧ st'.fs.opencodeAgent = some a ∧ st'.fs.copilotAgent = some cptpl)
    ∧ (∃ st', install ⟨true, oc, cp, none, none, none⟩
        ⟨⟨true, true, true, some a, none, octpl, some cptpl⟩,
          UEvent.ansB true :: UEvent.ansS "" :: UEvent.ansS "__custom__"
            :: UEvent.cancel :: rest, lg⟩
      = (.completed none true, st')
      ∧ st'.fs.opencodeAgent = some a ∧ st'.fs.copilotAgent = some cptpl) := by
  refine ⟨?_, ?_, ?_, ?_, ?_⟩ <;>
    simp [install, resolvePlatforms, isInteractive, installOpenCode, ocMkdirs,
      ocOverwrite, ocModel, ocColor, installCopilot, cpOverwrite, runConfirm,
      runSelect, runText, drainText, St.emit, truthy, jsOr]

/-- C4: the OpenCode target is written only when `updateFrontmatter`
returned successfully on the template content — whenever the target file
changed, the template was present, the merge succeeded, and the written
content is exactly the merge output. A merge failure (or any earlier exit)
leaves the target untouched. -/
theorem claim_C4 (o : Options) (i : Bool) (st : St)
    (h : (installOpenCode o i st).2.fs.opencodeAgent ≠ st.fs.opencodeAgent) :
    ∃ m c tpl out, st.fs.opencodeTemplate = some tpl
      ∧ updateFrontmatter tpl (ocUpdates m c) = Except.ok out
      ∧ (installOpenCode o i st).1 = OCOutcome.installed m c
      ∧ (installOpenCode o i st).2.fs.opencodeAgent = some out := by
  rcases hov : ocOverwrite i (ocMkdirs st) with ⟨b, st1⟩
  have e1 : st1.fs = (ocMkdirs st).fs := by
    have := ocOverwrite_fs i (ocMkdirs st); rw [hov] at this; exact this
  cases b with
  | false =>
    have hrun : installOpenCode o i st = (.skipped, st1) := by
      simp only [installOpenCode, hov]
    rw [hrun] at h
    exact absurd (by rw [e1, ocMkdirs_fs_opencodeAgent]) h
  | true =>
    rcases hm : ocModel o i (jsOr o.model "") st1 with ⟨r1, st2⟩
    have e2 : st2.fs = st1.fs := by
      have := ocModel_fs o i (jsOr o.model "") st1; rw [hm] at this; exact this
    cases r1 with
    | cancelled =>
      have hrun : installOpenCode o i st = (.skipped, st2) := by
        simp only [installOpenCode, hov, hm]
      rw [hrun] at h
      exact absurd (by rw [e2, e1, ocMkdirs_fs_opencodeAgent]) h
    | value m =>
      rcases hc : ocColor o i (jsOr o.color DEFAULT_COLOR) st2 with ⟨r2, st3⟩
      have e3 : st3.fs = st2.fs := by
        have := ocColor_fs o i (jsOr o.color DEFAULT_COLOR) st2; rw [hc] at this; exact this
      have eag : st3.fs.opencodeAgent = st.fs.opencodeAgent := by
        rw [e3, e2, e1, ocMkdirs_fs_opencodeAgent]
      have etpl : st3.fs.opencodeTemplate = st.fs.opencodeTemplate := by
        rw [e3, e2, e1, ocMkdirs_fs_opencodeTemplate]
      cases r2 with
      | cancelled =>
        have hrun : installOpenCode o i st = (.skipped, st3) := by
          simp only [installOpenCode, hov, hm, hc]
        rw [hrun] at h
        exact absurd eag h
      | invalid =>
        have hrun : installOpenCode o i st = (.skipped, st3) := by
          simp only [installOpenCode, hov, hm, hc]
        rw [hrun] at h
        exact absurd eag h
      | ok c =>
        have hrun : installOpenCode o i st = ocFinish m c st3 := by
          simp only [installOpenCode, hov, hm, hc]
        rw [hrun] at h ⊢
        rcases htpl : st3.fs.opencodeTemplate with _ | tpl
        · have hfin : ocFinish m c st3
              = (.skipped, st3.emit (.logError "OpenCode template not found")) := by
            simp only [ocFinish, htpl]
          rw [hfin] at h
          exact absurd (by rw [St.emit_fs]; exact eag) h
        · rcases hup : updateFrontmatter tpl (ocUpdates m c) with e | out
          · have hfin : ocFinish m c st3 = (.crashed e, st3) := by
              simp only [ocFinish, htpl, hup]
            rw [hfin] at h
            exact absurd eag h
          · have hfin : ocFinish m c st3
                = (.installed m c,
                   { st3 with fs := { st3.fs with opencodeAgent := some out } }) := by
              simp only [ocFinish, htpl, hup]
            rw [hfin]
            exact ⟨m, c, tpl, out, etpl ▸ htpl, hup, rfl, rfl⟩

/-- C4 witness: a concrete non-interactive run in which the target is
written, exhibiting the successful merge behind it. -/
theorem claim_C4_witness :
    (installOpenCode sampleOptsNone false sampleStO).2.fs.opencodeAgent
      ≠ sampleStO.fs.opencodeAgent
    ∧ ∃ m c tpl out, sampleStO.fs.opencodeTemplate = some tpl
      ∧ updateFrontmatter tpl (ocUpdates m c) = Except.ok out
      ∧ (installOpenCode sampleOptsNone false sampleStO).1 = OCOutcome.installed m c
      ∧ (installOpenCode sampleOptsNone false sampleStO).2.fs.opencodeAgent = some out :=
  ⟨by decide, claim_C4 sampleOptsNone false sampleStO (by decide)⟩

/-- C5: with unambiguous flags the platform list is resolved without the
interactive platform prompt (the world state, including the log, is
untouched): `all` yields both, exactly one platform flag yields that
platform, and both flags yield both, in the order opencode then copilot. -/
theorem claim_C5 (oc cp : Bool) (mdl cl : Option String) (tui : Option Bool)
    (i : Bool) (st : St) :
    resolvePlatforms ⟨true, oc, cp, mdl, cl, tui⟩ i st = (some ["opencode", "copilot"], st)
    ∧ resolvePlatforms ⟨false, true, false, mdl, cl, tui⟩ i st = (some ["opencode"], st)
    ∧ resolvePlatforms ⟨false, false, true, mdl, cl, tui⟩ i st = (some ["copilot"], st)
    ∧ resolvePlatforms ⟨false, true, true, mdl, cl, tui⟩ i st
        = (some ["opencode", "copilot"], st) := by
  refine ⟨?_, ?_, ?_, ?_⟩ <;> simp [resolvePlatforms]

/-- C6: overwrite handling when the target agent file already exists, for
both installers. Interactively, the overwrite confirmation is shown and a
negative answer or a cancel returns the skip signal with the filesystem
untouched and a skip warning logged (conjuncts 1, 2, 4, 5); non-interactively
the existing file is overwritten with only a warning logged (conjuncts 3
and 6). -/
theorem claim_C6 (o : Options) (al oc cp : Bool) (a bAg tpl ctpl out : String)
    (evs rest : List UEvent) (lg : List LogEvent)
    (hmerge : updateFrontmatter tpl (ocUpdates "" DEFAULT_COLOR) = Except.ok out) :
    installOpenCode o true
        ⟨⟨true, true, true, some a, some bAg, some tpl, some ctpl⟩,
          UEvent.ansB false :: rest, lg⟩
      = (.skipped,
         ⟨⟨true, true, true, some a, some bAg, some tpl, some ctpl⟩, rest,
          lg ++ [LogEvent.prompt .overwriteOpenCode,
                 LogEvent.logWarning "Skipping OpenCode installation."]⟩)
    ∧ installOpenCode o true
        ⟨⟨true, true, true, some a, some bAg, some tpl, some ctpl⟩,
          UEvent.cancel :: rest, lg⟩
      = (.skipped,
         ⟨⟨true, true, true, some a, some bAg, some tpl, some ctpl⟩, rest,
          lg ++ [LogEvent.prompt .overwriteOpenCode,
                 LogEvent.logWarning "Skipping OpenCode installation."]⟩)
    ∧ installOpenCode ⟨al, oc, cp, none, none, some false⟩ false
        ⟨⟨true, true, true, some a, some bAg, some tpl, some ctpl⟩, evs, lg⟩
      = (.installed "" DEFAULT_COLOR,
         ⟨⟨true, true, true, some out, some bAg, some tpl, some ctpl⟩, evs,
          lg ++ [LogEvent.logWarning "OpenCode Learn agent already exists. Overwriting..."]⟩)
    ∧ installCopilot true
        ⟨⟨true, true, true, some a, some bAg, some tpl, some ctpl⟩,
          UEvent.ansB false :: rest, lg⟩
      = (false,
         ⟨⟨true, true, true, some a, some bAg, some tpl, some ctpl⟩, rest,
          lg ++ [LogEvent.prompt .overwriteCopilot,
                 LogEvent.logWarning "Skipping GitHub Copilot installation."]⟩)
    ∧ installCopilot true
        ⟨⟨true, true, true, some a, some bAg, some tpl, some ctpl⟩,
          UEvent.cancel :: rest, lg⟩
      = (false,
         ⟨⟨true, true, true, some a, some bAg, some tpl, some ctpl⟩, rest,
          lg ++ [LogEvent.prompt .overwriteCopilot,
                 LogEvent.logWarning "Skipping GitHub Copilot installation."]⟩)
    ∧ installCopilot false
        ⟨⟨true, true, true, some a, some bAg, some tpl, some ctpl⟩, evs, lg⟩
      = (true,
         ⟨⟨true, true, true, some a, some ctpl, some tpl, some ctpl⟩, evs,
          lg ++ [LogEvent.logWarning "GitHub Copilot Learn agent already exists. Overwriting..."]⟩) := by
  refine ⟨?_, ?_, ?_, ?_, ?_, ?_⟩ <;>
    simp [installOpenCode, ocMkdirs, ocOverwrite, ocModel, ocColor, ocFinish,
      installCopilot, cpOverwrite, runConfirm, runSelect, St.emit, truthy, jsOr, hmerge]

/-- C6 witness: concrete overwrite scenarios — an interactive refusal skips
the OpenCode install, and a non-interactive Copilot run overwrites with a
warning. -/
theorem claim_C6_witness :
    updateFrontmatter sampleTemplate (ocUpdates "" DEFAULT_COLOR)
      = Except.ok sampleMergedDefault
    ∧ installOpenCode sampleOptsNone true
        ⟨⟨true, true, true, some "old", some "oldcp", some sampleTemplate, some "cp"⟩,
          UEvent.ansB false :: [], []⟩
      = (.skipped,
         ⟨⟨true, true, true, some "old", some "oldcp", some sampleTemplate, some "cp"⟩, [],
          [] ++ [LogEvent.prompt .overwriteOpenCode,
                 LogEvent.logWarning "Skipping OpenCode installation."]⟩)
    ∧ installCopilot false
        ⟨⟨true, true, true, some "old", some "oldcp", some sampleTemplate, some "cp"⟩, [], []⟩
      = (true,
         ⟨⟨true, true, true, some "old", some "cp", some sampleTemplate, some "cp"⟩, [],
          [] ++ [LogEvent.logWarning "GitHub Copilot Learn agent already exists. Overwriting..."]⟩) :=
  ⟨by rfl,
   (claim_C6 sampleOptsNone false false false "old" "oldcp" sampleTemplate "cp"
      sampleMergedDefault [] [] [] (by rfl)).1,
   (claim_C6 sampleOptsNone false false false "old" "oldcp" sampleTemplate "cp"
      sampleMergedDefault [] [] [] (by rfl)).2.2.2.2.2⟩

/-- C7: the custom-model text validator accepts the empty string and every
string containing at least one slash, and rejects every non-empty string
with no slash. -/
theorem claim_C7 (s : String) : modelTextValidate s = none ↔ s = "" ∨ '/' ∈ s.data := by
  unfold modelTextValidate
  rcases s with ⟨data⟩
  cases data with
  | nil => simp
  | cons c cs =>
    simp [String.ext_iff]
    tauto

/-- C7 witness: the spec's validation examples. -/
theorem claim_C7_witness :
    modelTextValidate "anthropic/claude-sonnet-4" = none
    ∧ ¬ modelTextValidate "claude-sonnet-4" = none := by
  constructor
  · exact (claim_C7 "anthropic/claude-sonnet-4").mpr (Or.inr (by decide))
  · intro h
    rcases (claim_C7 "claude-sonnet-4").mp h with h' | h'
    · exact absurd h' (by decide)
    · exact absurd h' (by decide)

/-- C8: whenever `installCopilot` reports success, the Copilot agent file
holds exactly the Copilot template's content — no frontmatter merge or any
other transformation was applied. -/
theorem claim_C8 (i : Bool) (st : St) (h : (installCopilot i st).1 = true) :
    ∃ tpl, st.fs.copilotTemplate = some tpl
      ∧ (installCopilot i st).2.fs.copilotAgent = some tpl := by
  rcases hov : cpOverwrite i
      (if st.fs.copilotAgentsDir then st
       else { st with fs := { st.fs with copilotAgentsDir := true } }) with ⟨b, st1⟩
  have e1 : st1.fs.copilotTemplate = st.fs.copilotTemplate := by
    have := cpOverwrite_fs i
      (if st.fs.copilotAgentsDir then st
       else { st with fs := { st.fs with copilotAgentsDir := true } })
    rw [hov] at this
    rw [this]
    by_cases hd : st.fs.copilotAgentsDir <;> simp [hd]
  cases b with
  | false =>
    have hrun : installCopilot i st = (false, st1) := by
      simp only [installCopilot, hov]
    rw [hrun] at h
    simp at h
  | true =>
    rcases htpl : st1.fs.copilotTemplate with _ | tpl
    · have hrun : installCopilot i st
          = (false, st1.emit (.logError "GitHub Copilot template not found")) := by
        simp only [installCopilot, hov, htpl]
      rw [hrun] at h
      simp at h
    · have hrun : installCopilot i st
          = (true, { st1 with fs := { st1.fs with copilotAgent := some tpl } }) := by
        simp only [installCopilot, hov, htpl]
      rw [hrun]
      exact ⟨tpl, e1 ▸ htpl, rfl⟩

/-- C8 witness: a concrete successful Copilot install copies the template
verbatim. -/
theorem claim_C8_witness :
    (installCopilot false sampleStCp).1 = true
    ∧ ∃ tpl, sampleStCp.fs.copilotTemplate = some tpl
      ∧ (installCopilot false sampleStCp).2.fs.copilotAgent = some tpl :=
  ⟨by decide, claim_C8 false sampleStCp (by decide)⟩

/-- C9: non-interactive (`tui: false`) with none of the all/opencode/copilot
flags set resolves to both platforms with no prompt shown (the world state,
including the log, is untouched). -/
theorem claim_C9 (mdl cl : Option String) (st : St) :
    resolvePlatforms ⟨false, false, false, mdl, cl, some false⟩
        (isInteractive ⟨false, false, false, mdl, cl, some false⟩) st
      = (some ["opencode", "copilot"], st) := by
  simp [resolvePlatforms, isInteractive]

/-- C10: a pre-supplied invalid color aborts the OpenCode install even when
interactive — the color prompt is skipped, there is no re-prompt or menu
fallback, and the error is reported only after the overwrite and model
prompts have been answered, as the final log shows. -/
theorem claim_C10 (al oc cp : Bool) (c a : String) (cpa octpl cptpl : Option String)
    (rest : List UEvent) (lg : List LogEvent)
    (hc1 : c.data.isEmpty = false) (hc2 : isValidHexColor c = false) :
    installOpenCode ⟨al, oc, cp, none, some c, none⟩ true
        ⟨⟨true, true, true, some a, cpa, octpl, cptpl⟩,
          UEvent.ansB true :: UEvent.ansS "" :: rest, lg⟩
      = (.skipped,
         ⟨⟨true, true, true, some a, cpa, octpl, cptpl⟩, rest,
          lg ++ [LogEvent.prompt .overwriteOpenCode, LogEvent.prompt .modelSelect,
                 LogEvent.logError ("Invalid hex color: " ++ c ++ ". Use format #RRGGBB")]⟩) := by
  simp [installOpenCode, ocMkdirs, ocOverwrite, ocModel, ocColor, runConfirm, runSelect,
    St.emit, truthy, jsOr, hc1, hc2]

/-- C10 witness: the invalid pre-supplied color `red` in an interactive
session with an existing agent file. -/
theorem claim_C10_witness :
    ("red" : String).data.isEmpty = false
    ∧ isValidHexColor "red" = false
    ∧ installOpenCode ⟨false, false, false, none, some "red", none⟩ true
        ⟨⟨true, true, true, some "old", none, none, none⟩,
          UEvent.ansB true :: UEvent.ansS "" :: [], []⟩
      = (.skipped,
         ⟨⟨true, true, true, some "old", none, none, none⟩, [],
          [] ++ [LogEvent.prompt .overwriteOpenCode, LogEvent.prompt .modelSelect,
                 LogEvent.logError ("Invalid hex color: " ++ "red" ++ ". Use format #RRGGBB")]⟩) :=
  ⟨by decide, by decide,
   claim_C10 false false false "red" "old" none none none [] [] (by decide) (by decide)⟩

end Nudge
